import Mathlib

/-!
Verification of the serverless email-verification worker
(`src/emailVerification.js`) against its specification.

The JavaScript handler is shallowly embedded as a pure function from an
oracle `World` (process environment, Secrets Manager, SendGrid, MySQL,
CloudWatch) to a trace of outbound effects together with an `Except`
result modelling JS return / throw.  Each definition mirrors one function
of the source file, keeping its name and control flow (including
try/catch/finally and the order in which side effects are issued).
-/

deriving instance DecidableEq for Except

namespace EmailVerification

/-- The constant `FUNCTION_NAME` of the source (line 10). -/
def FUNCTION_NAME : String := "emailVerificationLambda"

/-- The constant `EMAIL_FROM` of the source (line 11): the fixed,
pre-verified sender address. -/
def EMAIL_FROM : String := "noreply@em2722.demo.csyeproject.me"

/-- The result of destructuring a parsed SNS JSON message
(`const ... = message`, line 84).  A field absent from the JSON is
`none`, mirroring the JS value `undefined`. -/
structure Message where
  email : Option String
  userId : Option String
  activationLink : Option String
deriving DecidableEq, Repr

/-- JS template-literal interpolation: `undefined` prints as the string
"undefined". -/
def jsToString : Option String → String
  | none => "undefined"
  | some s => s

/-- The message object passed to `sgMail.send` (lines 109-115).
`toAddr` and `fromAddr` stand for the JS fields `to` and `from` (Lean keywords). -/
structure SgMsg where
  toAddr : Option String
  fromAddr : String
  subject : String
  text : String
  html : String
deriving DecidableEq, Repr

/-- The JSON object stored in a secret (result of
`JSON.parse(data.SecretString)`, line 45); fields absent from the JSON
are `none`. -/
structure Secret where
  sendgrid_api_key : Option String
  password : Option String
deriving DecidableEq, Repr

/-- One outbound call made by the worker.  `putMetric` records the
CloudWatch `putMetricData` call of `logMetric`; `getSecret` the
Secrets Manager `getSecretValue` call; `sgSend` the SendGrid send;
`dbConnect`, `dbExecute`, `dbEnd` the MySQL connection lifecycle. -/
inductive Effect where
  | putMetric (namespaceName metricName unit : String) (value : Nat)
      (dimensions : List (String × String))
  | getSecret (secretId : Option String)
  | sgSend (msg : SgMsg)
  | dbConnect (host user password database : Option String)
  | dbExecute (query : String) (params : List (Option String))
  | dbEnd
deriving DecidableEq, Repr

/-- Oracle for the external world: the process environment and the
responses of each external service.  `metricOk` tells whether the
metrics backend accepts a datapoint; the handler never reads it, which
is exactly the fire-and-forget property of `cloudwatch.putMetricData`
with a callback. -/
structure World where
  env : String → Option String
  getSecret : Option String → Except String Secret
  sgSend : SgMsg → Except String Unit
  dbConnect : Option String → Option String → Option String → Option String →
      Except String Unit
  dbExecute : String → List (Option String) → Except String Nat
  metricOk : String → Bool

/-- The source's `logMetric` (lines 14-34): one `putMetricData` call,
fire-and-forget (the callback only logs, so no result is observed). -/
def logMetric (metricName : String) (value : Nat) (unit : String := "Count") :
    List Effect :=
  [Effect.putMetric "EmailVerificationMetrics" metricName unit value
    [("FunctionName", FUNCTION_NAME)]]

/-- The callback passed to `cloudwatch.putMetricData` (lines 27-33),
returning the console line it prints: an error line on failure, a
success line otherwise. -/
def putMetricCallback (metricName : String) : Option String → String
  | some e => "Failed to push metric " ++ metricName ++ ": " ++ e
  | none => "Metric " ++ metricName ++ " logged successfully"

/-- The source's `logErrorMetric` (lines 37-39). -/
def logErrorMetric (errorType : String) : List Effect :=
  logMetric errorType 1 "Count"

/-- The source's `getSecretValue` (lines 42-51): one Secrets Manager
call; on failure (retrieval or JSON parse) it emits a
`SecretsManagerError` metric and throws `Unable to retrieve secret ...`. -/
def getSecretValue (w : World) (secretName : Option String) :
    List Effect × Except String Secret :=
  match w.getSecret secretName with
  | Except.ok data => ([Effect.getSecret secretName], Except.ok data)
  | Except.error _ =>
      (Effect.getSecret secretName :: logErrorMetric "SecretsManagerError",
        Except.error ("Unable to retrieve secret " ++ jsToString secretName))

/-- The source's `getDbPassword` (lines 54-57): reads the secret named
by `DB_CREDENTIALS_SECRET_NAME` and returns its `password` field. -/
def getDbPassword (w : World) : List Effect × Except String (Option String) :=
  match getSecretValue w (w.env "DB_CREDENTIALS_SECRET_NAME") with
  | (tr, Except.ok secrets) => (tr, Except.ok secrets.password)
  | (tr, Except.error e) => (tr, Except.error e)

/-- The exact SQL text of the UPDATE statement (lines 142-146). -/
def query : String :=
  "\n      UPDATE user\n      SET email_sent_at = NOW(), email_status = \x27sent\x27\n      WHERE id = ?\n    "

/-- The message literal `msg` of `sendVerificationEmail` (lines
109-115): fixed sender, fixed subject, and the activation link
interpolated into both the text and the HTML body. -/
def verificationMsg (email activationLink : Option String) : SgMsg :=
  { toAddr := email
    fromAddr := EMAIL_FROM
    subject := "Verify Your Email"
    text := "Please verify your email using this link: " ++
      jsToString activationLink
    html := "<p>Click <a href=\"" ++ jsToString activationLink ++
      "\">here</a> to verify your email.</p>" }

/-- The source's `sendVerificationEmail` (lines 107-124): builds the
SendGrid message with the fixed sender and the activation link
interpolated into both bodies, sends it; on failure it emits a
`SendGridError` metric and throws. -/
def sendVerificationEmail (w : World) (email activationLink : Option String) :
    List Effect × Except String Unit :=
  let msg : SgMsg := verificationMsg email activationLink
  match w.sgSend msg with
  | Except.ok _ => ([Effect.sgSend msg], Except.ok ())
  | Except.error _ =>
      (Effect.sgSend msg :: logErrorMetric "SendGridError",
        Except.error ("Failed to send email to " ++ jsToString email))

/-- The source's `logEmailSent` (lines 127-164): fetch the DB password,
open one connection, run the single UPDATE with `userId` as the sole
parameter, treat zero affected rows as an unknown-user error; any
failure inside the `try` emits a `DatabaseError` metric and is
rethrown; the `finally` closes the connection whenever it was opened. -/
def logEmailSent (w : World) (userId email : Option String) :
    List Effect × Except String Unit :=
  match getDbPassword w with
  | (tr, Except.error e) =>
      (tr ++ logErrorMetric "DatabaseError", Except.error e)
  | (tr, Except.ok dbPassword) =>
    let dbHost := w.env "DB_HOST"
    let dbName := w.env "DB_NAME"
    let dbUser := w.env "DB_USER"
    match w.dbConnect dbHost dbUser dbPassword dbName with
    | Except.error e =>
        (tr ++ [Effect.dbConnect dbHost dbUser dbPassword dbName] ++
          logErrorMetric "DatabaseError", Except.error e)
    | Except.ok _ =>
      match w.dbExecute query [userId] with
      | Except.error e =>
          (tr ++ [Effect.dbConnect dbHost dbUser dbPassword dbName,
            Effect.dbExecute query [userId]] ++
            logErrorMetric "DatabaseError" ++ [Effect.dbEnd],
            Except.error e)
      | Except.ok result =>
        if result = 0 then
          (tr ++ [Effect.dbConnect dbHost dbUser dbPassword dbName,
            Effect.dbExecute query [userId]] ++
            logErrorMetric "DatabaseError" ++ [Effect.dbEnd],
            Except.error ("No user found with ID " ++ jsToString userId))
        else
          (tr ++ [Effect.dbConnect dbHost dbUser dbPassword dbName,
            Effect.dbExecute query [userId], Effect.dbEnd],
            Except.ok ())

/-- One SNS record of the inbound event; `message` is the outcome of
`JSON.parse` on its `Sns.Message` string (line 83): an exception or the
destructured fields. -/
structure SnsRecord where
  message : Except String Message
deriving DecidableEq, Repr

/-- The inbound Lambda event: a list of SNS records. -/
structure Event where
  records : List SnsRecord
deriving DecidableEq, Repr

/-- The value `{ status: 'Success' }` returned by the handler (line 98). -/
structure HandlerResult where
  status : String
deriving DecidableEq, Repr

/-- The list `requiredEnvVars` of the source (lines 63-70). -/
def requiredEnvVars : List String :=
  ["DB_HOST", "DB_NAME", "DB_USER", "EMAIL_CREDENTIALS_SECRET_NAME",
    "REGION", "DB_CREDENTIALS_SECRET_NAME"]

/-- JS truthiness test used by `if (!process.env[varName])` (line 73):
an absent variable or the empty string is falsy. -/
def isFalsyEnv : Option String → Bool
  | none => true
  | some s => s.isEmpty

/-- The first required environment variable whose value is falsy, if
any: the variable whose check at line 73 fires first. -/
def firstMissingEnv (w : World) : Option String :=
  requiredEnvVars.find? (fun v => isFalsyEnv (w.env v))

/-- The body of the `try` block of the handler (lines 62-98): validate
the environment, fetch the email credentials, parse the first SNS
record, send the email, record it in the database, emit the success
metric.  An empty `Records` array makes `event.Records[0].Sns` throw a
TypeError in JS. -/
def handlerTry (w : World) (event : Event) :
    List Effect × Except String HandlerResult :=
  match firstMissingEnv w with
  | some v =>
      ([], Except.error ("Environment variable " ++ v ++ " is not set"))
  | none =>
    match getSecretValue w (w.env "EMAIL_CREDENTIALS_SECRET_NAME") with
    | (tr1, Except.error e) => (tr1, Except.error e)
    | (tr1, Except.ok _emailSecrets) =>
      match event.records with
      | [] =>
          (tr1, Except.error
            "TypeError: Cannot read properties of undefined (reading Sns)")
      | r0 :: _ =>
        match r0.message with
        | Except.error e => (tr1, Except.error e)
        | Except.ok message =>
          match sendVerificationEmail w message.email message.activationLink with
          | (tr2, Except.error e) => (tr1 ++ tr2, Except.error e)
          | (tr2, Except.ok _) =>
            match logEmailSent w message.userId message.email with
            | (tr3, Except.error e) => (tr1 ++ tr2 ++ tr3, Except.error e)
            | (tr3, Except.ok _) =>
              (tr1 ++ tr2 ++ tr3 ++ logMetric "EmailsSent" 1 "Count",
                Except.ok { status := "Success" })

/-- The source's `handler` (lines 60-104): the `try` body wrapped in the
`catch` that emits a `GeneralError` metric and rethrows. -/
def handler (w : World) (event : Event) :
    List Effect × Except String HandlerResult :=
  match handlerTry w event with
  | (tr, Except.ok res) => (tr, Except.ok res)
  | (tr, Except.error e) =>
      (tr ++ logErrorMetric "GeneralError", Except.error e)

/-- Whether an effect is the SendGrid send call. -/
def isSgSend : Effect → Bool
  | Effect.sgSend _ => true
  | _ => false

/-- Whether an effect is the database UPDATE (`connection.execute`). -/
def isDbExecute : Effect → Bool
  | Effect.dbExecute _ _ => true
  | _ => false

/-- Whether an effect is the `mysql.createConnection` call. -/
def isDbConnect : Effect → Bool
  | Effect.dbConnect _ _ _ _ => true
  | _ => false

/-- Whether an effect is the `connection.end()` call. -/
def isDbEnd : Effect → Bool
  | Effect.dbEnd => true
  | _ => false

/-- Whether an effect is any database call. -/
def isDbEffect : Effect → Bool
  | Effect.dbConnect _ _ _ _ => true
  | Effect.dbExecute _ _ => true
  | Effect.dbEnd => true
  | _ => false

/-- Whether an effect is a Secrets Manager retrieval. -/
def isGetSecret : Effect → Bool
  | Effect.getSecret _ => true
  | _ => false

/-- Whether an effect is a CloudWatch `putMetricData` call. -/
def isPutMetric : Effect → Bool
  | Effect.putMetric _ _ _ _ _ => true
  | _ => false

/-- The oracle call recorded by an effect succeeded (for the UPDATE,
succeeded with a nonzero affected-row count); metric pushes and
`connection.end()` are unconditionally fine. -/
def effectOk (w : World) : Effect → Prop
  | Effect.getSecret n => ∃ s, w.getSecret n = Except.ok s
  | Effect.sgSend m => w.sgSend m = Except.ok ()
  | Effect.dbConnect h u p d => w.dbConnect h u p d = Except.ok ()
  | Effect.dbExecute q ps => ∃ k, w.dbExecute q ps = Except.ok k ∧ k ≠ 0
  | _ => True

/-- A concrete world in which every external call succeeds: every
environment variable is set, both secrets resolve, the send succeeds and
the UPDATE affects one row. -/
def okWorld : World :=
  { env := fun _ => some "v"
    getSecret := fun _ =>
      Except.ok { sendgrid_api_key := some "k", password := some "p" }
    sgSend := fun _ => Except.ok ()
    dbConnect := fun _ _ _ _ => Except.ok ()
    dbExecute := fun _ _ => Except.ok 1
    metricOk := fun _ => true }

/-- A concrete payload carrying all three fields. -/
def okMessage : Message :=
  { email := some "a@b.com", userId := some "42",
    activationLink := some "https://x/verify/42" }

/-- A concrete event with one well-formed record carrying all three
payload fields. -/
def okEvent : Event :=
  { records := [{ message := Except.ok okMessage }] }

/-- A concrete payload that parses but lacks the `userId` field. -/
def noUserIdMessage : Message :=
  { email := some "a@b.com", userId := none,
    activationLink := some "https://x/verify/42" }

/-- A concrete event whose payload parses but lacks the `userId` field. -/
def noUserIdEvent : Event :=
  { records := [{ message := Except.ok noUserIdMessage }] }

/-- A world identical to `okWorld` except that `REGION` is unset. -/
def missingRegionWorld : World :=
  { okWorld with env := fun n => if n = "REGION" then none else some "v" }

/-- A world identical to `okWorld` except that the UPDATE affects zero
rows. -/
def zeroRowsWorld : World :=
  { okWorld with dbExecute := fun _ _ => Except.ok 0 }

/-- A world identical to `okWorld` except that the SendGrid send fails. -/
def sendFailWorld : World :=
  { okWorld with sgSend := fun _ => Except.error "boom" }

/-! Inversion lemmas: what a step's success or failure tells about the
oracle and about the trace the step produced. -/

lemma getSecretValue_ok {w : World} {n : Option String} {tr : List Effect}
    {s : Secret} (h : getSecretValue w n = (tr, Except.ok s)) :
    w.getSecret n = Except.ok s ∧ tr = [Effect.getSecret n] := by
  unfold getSecretValue at h
  split at h <;> simp_all

lemma getSecretValue_trace (w : World) (n : Option String) :
    (getSecretValue w n).1 = [Effect.getSecret n] ∨
    (getSecretValue w n).1 =
      Effect.getSecret n :: logErrorMetric "SecretsManagerError" := by
  unfold getSecretValue
  split <;> simp

lemma getDbPassword_ok {w : World} {tr : List Effect} {p : Option String}
    (h : getDbPassword w = (tr, Except.ok p)) :
    ∃ s : Secret,
      w.getSecret (w.env "DB_CREDENTIALS_SECRET_NAME") = Except.ok s ∧
      s.password = p ∧
      tr = [Effect.getSecret (w.env "DB_CREDENTIALS_SECRET_NAME")] := by
  unfold getDbPassword at h
  split at h
  next tr' s heq =>
    obtain ⟨h1, h2⟩ := getSecretValue_ok heq
    cases h
    exact ⟨s, h1, rfl, h2⟩
  next => simp_all

lemma sendVerificationEmail_ok {w : World} {email link : Option String}
    {tr : List Effect} {u : Unit}
    (h : sendVerificationEmail w email link = (tr, Except.ok u)) :
    w.sgSend (verificationMsg email link) = Except.ok () ∧
    tr = [Effect.sgSend (verificationMsg email link)] := by
  cases hsg : w.sgSend (verificationMsg email link) with
  | ok u2 => simp [sendVerificationEmail, hsg] at h; simp [hsg, h]
  | error e => simp [sendVerificationEmail, hsg] at h

lemma logEmailSent_ok {w : World} {userId email : Option String}
    {tr : List Effect} {u : Unit}
    (h : logEmailSent w userId email = (tr, Except.ok u)) :
    ∃ (s : Secret) (k : Nat),
      w.getSecret (w.env "DB_CREDENTIALS_SECRET_NAME") = Except.ok s ∧
      w.dbConnect (w.env "DB_HOST") (w.env "DB_USER") s.password
        (w.env "DB_NAME") = Except.ok () ∧
      w.dbExecute query [userId] = Except.ok k ∧ k ≠ 0 ∧
      tr = [Effect.getSecret (w.env "DB_CREDENTIALS_SECRET_NAME"),
        Effect.dbConnect (w.env "DB_HOST") (w.env "DB_USER") s.password
          (w.env "DB_NAME"),
        Effect.dbExecute query [userId], Effect.dbEnd] := by
  cases hgp : w.getSecret (w.env "DB_CREDENTIALS_SECRET_NAME") with
  | error e => simp [logEmailSent, getDbPassword, getSecretValue, hgp] at h
  | ok s =>
    cases hcn : w.dbConnect (w.env "DB_HOST") (w.env "DB_USER") s.password
        (w.env "DB_NAME") with
    | error e =>
        simp [logEmailSent, getDbPassword, getSecretValue, hgp, hcn] at h
    | ok u2 =>
      cases hex : w.dbExecute query [userId] with
      | error e =>
          simp [logEmailSent, getDbPassword, getSecretValue, hgp, hcn, hex] at h
      | ok k =>
        by_cases hk : k = 0
        · simp [logEmailSent, getDbPassword, getSecretValue, hgp, hcn, hex,
            hk] at h
        · simp [logEmailSent, getDbPassword, getSecretValue, hgp, hcn, hex,
            hk] at h
          exact ⟨s, k, rfl, hcn, rfl, hk, h.symm⟩

lemma handlerTry_ok {w : World} {e : Event} {tr : List Effect}
    {res : HandlerResult} (h : handlerTry w e = (tr, Except.ok res)) :
    res = { status := "Success" } ∧
    firstMissingEnv w = none ∧
    ∃ (s1 : Secret) (r0 : SnsRecord) (rest : List SnsRecord) (m : Message)
      (s2 : Secret) (k : Nat),
      w.getSecret (w.env "EMAIL_CREDENTIALS_SECRET_NAME") = Except.ok s1 ∧
      e.records = r0 :: rest ∧
      r0.message = Except.ok m ∧
      w.sgSend (verificationMsg m.email m.activationLink) = Except.ok () ∧
      w.getSecret (w.env "DB_CREDENTIALS_SECRET_NAME") = Except.ok s2 ∧
      w.dbConnect (w.env "DB_HOST") (w.env "DB_USER") s2.password
        (w.env "DB_NAME") = Except.ok () ∧
      w.dbExecute query [m.userId] = Except.ok k ∧ k ≠ 0 ∧
      tr = Effect.getSecret (w.env "EMAIL_CREDENTIALS_SECRET_NAME") ::
        Effect.sgSend (verificationMsg m.email m.activationLink) ::
        Effect.getSecret (w.env "DB_CREDENTIALS_SECRET_NAME") ::
        Effect.dbConnect (w.env "DB_HOST") (w.env "DB_USER") s2.password
          (w.env "DB_NAME") ::
        Effect.dbExecute query [m.userId] ::
        Effect.dbEnd ::
        logMetric "EmailsSent" 1 "Count" := by
  unfold handlerTry at h
  split at h
  next => simp_all
  next henv =>
    split at h
    next => simp_all
    next tr1 s1 heq1 =>
      obtain ⟨hg1, htr1⟩ := getSecretValue_ok heq1
      split at h
      next hrec => simp_all
      next r0 rest hrec =>
        split at h
        next => simp_all
        next m hmsg =>
          split at h
          next => simp_all
          next tr2 u2 heq2 =>
            obtain ⟨hsg, htr2⟩ := sendVerificationEmail_ok heq2
            split at h
            next => simp_all
            next tr3 u3 heq3 =>
              obtain ⟨s2, k, hg2, hcn, hex, hk, htr3⟩ := logEmailSent_ok heq3
              simp only [Prod.mk.injEq, Except.ok.injEq] at h
              obtain ⟨htr, hres⟩ := h
              refine ⟨hres.symm, henv, s1, r0, rest, m, s2, k, hg1, hrec,
                hmsg, hsg, hg2, hcn, hex, hk, ?_⟩
              subst htr1 htr2 htr3
              rw [← htr]
              simp

lemma handler_ok {w : World} {e : Event} {tr : List Effect}
    {res : HandlerResult} (h : handler w e = (tr, Except.ok res)) :
    handlerTry w e = (tr, Except.ok res) := by
  unfold handler at h
  split at h <;> simp_all

/-- C1: for every valid payload (all three fields present), a successful
invocation of the handler performs exactly one outbound email send whose
`to` equals the payload's email, whose `from` equals the fixed
pre-verified sender `EMAIL_FROM`, with the activation link verbatim in
both the text and the HTML body; performs exactly one database UPDATE
with the payload's `userId` as the sole bound parameter; and returns the
success marker. -/
theorem C1_valid_payload_success (w : World) (e : Event) (r0 : SnsRecord)
    (rest : List SnsRecord) (email userId link : String)
    (tr : List Effect) (res : HandlerResult)
    (hrec : e.records = r0 :: rest)
    (hmsg : r0.message = Except.ok
      { email := some email, userId := some userId,
        activationLink := some link })
    (h : handler w e = (tr, Except.ok res)) :
    res.status = "Success" ∧
    tr.filter isSgSend =
      [Effect.sgSend (verificationMsg (some email) (some link))] ∧
    (verificationMsg (some email) (some link)).toAddr = some email ∧
    (verificationMsg (some email) (some link)).fromAddr = EMAIL_FROM ∧
    (∃ pre post,
      (verificationMsg (some email) (some link)).text =
        pre ++ link ++ post) ∧
    (∃ pre post,
      (verificationMsg (some email) (some link)).html =
        pre ++ link ++ post) ∧
    tr.filter isDbExecute = [Effect.dbExecute query [some userId]] := by
  obtain ⟨hres, henv, s1, r0', rest', m, s2, k, hg1, hrec', hmsg', hsg, hg2,
    hcn, hex, hk, htr⟩ := handlerTry_ok (handler_ok h)
  rw [hrec] at hrec'
  injection hrec' with h1 h2
  subst h1
  rw [hmsg] at hmsg'
  injection hmsg' with h3
  subst h3
  refine ⟨by rw [hres], ?_, rfl, rfl,
    ⟨"Please verify your email using this link: ", "",
      by simp [verificationMsg, jsToString]⟩,
    ⟨"<p>Click <a href=\"", "\">here</a> to verify your email.</p>",
      by simp [verificationMsg, jsToString]⟩, ?_⟩ <;>
  · subst htr
    simp [isSgSend, isDbExecute, logMetric, List.filter]

/-- Witness for C1: the fully successful world `okWorld` on the
well-formed event `okEvent`. -/
theorem C1_valid_payload_success_witness :
    ({ status := "Success" } : HandlerResult).status = "Success" ∧
    (handler okWorld okEvent).1.filter isSgSend =
      [Effect.sgSend
        (verificationMsg (some "a@b.com") (some "https://x/verify/42"))] ∧
    (verificationMsg (some "a@b.com")
      (some "https://x/verify/42")).toAddr = some "a@b.com" ∧
    (verificationMsg (some "a@b.com")
      (some "https://x/verify/42")).fromAddr = EMAIL_FROM ∧
    (∃ pre post,
      (verificationMsg (some "a@b.com") (some "https://x/verify/42")).text =
        pre ++ "https://x/verify/42" ++ post) ∧
    (∃ pre post,
      (verificationMsg (some "a@b.com") (some "https://x/verify/42")).html =
        pre ++ "https://x/verify/42" ++ post) ∧
    (handler okWorld okEvent).1.filter isDbExecute =
      [Effect.dbExecute query [some "42"]] :=
  C1_valid_payload_success okWorld okEvent { message := Except.ok okMessage }
    [] "a@b.com" "42" "https://x/verify/42" (handler okWorld okEvent).1
    { status := "Success" } rfl rfl rfl

/-- C8: the handler's trace and result are identical whatever the
metrics backend answers (metric emission is fire-and-forget), and a
failed metric push is logged by the `putMetricData` callback with a
`Failed to push metric` line, never propagated. -/
theorem C8_metric_failure_unobservable (w : World) (e : Event)
    (b : String → Bool) (name err : String) :
    handler { w with metricOk := b } e = handler w e ∧
    putMetricCallback name (some err) =
      "Failed to push metric " ++ name ++ ": " ++ err :=
  ⟨rfl, rfl⟩

/-- C9: the handler reads only the first record of the event; any
further records are ignored, so the whole invocation (trace and result)
is the same as on the single-record event. -/
theorem C9_only_first_record (w : World) (r0 : SnsRecord)
    (rest : List SnsRecord) :
    handler w { records := r0 :: rest } = handler w { records := [r0] } :=
  rfl

lemma getSecretValue_no_db (w : World) (n : Option String) :
    ∀ eff ∈ (getSecretValue w n).1, isDbEffect eff = false := by
  unfold getSecretValue
  split <;> simp [logErrorMetric, logMetric, isDbEffect]

/-- Traces produced before (or instead of) the database step contain a
successful send before any database effect: case analysis over every
branch of the handler. -/
lemma handlerTry_db_after_send (w : World) (e : Event) :
    (∀ eff ∈ (handlerTry w e).1, isDbEffect eff = false) ∨
    ∃ (l₁ : List Effect) (m : SgMsg) (l₂ : List Effect),
      (handlerTry w e).1 = l₁ ++ Effect.sgSend m :: l₂ ∧
      w.sgSend m = Except.ok () ∧
      ∀ eff ∈ l₁, isDbEffect eff = false := by
  unfold handlerTry
  split
  next => left; simp
  next henv =>
    split
    next tr1 e1 heq1 =>
      left
      intro eff hm
      have h1 : tr1 = (getSecretValue w (w.env "EMAIL_CREDENTIALS_SECRET_NAME")).1 := by
        rw [heq1]
      exact getSecretValue_no_db _ _ eff (h1 ▸ hm)
    next tr1 s1 heq1 =>
      obtain ⟨hg1, htr1⟩ := getSecretValue_ok heq1
      split
      next => left; simp [htr1, isDbEffect]
      next r0 rest hrec =>
        split
        next => left; simp [htr1, isDbEffect]
        next m hmsg =>
          split
          next tr2 e2 heq2 =>
            left
            intro eff hm
            simp [htr1] at hm
            rcases hm with rfl | hm
            · rfl
            · have h2 : tr2 = (sendVerificationEmail w m.email m.activationLink).1 := by
                rw [heq2]
              rw [h2] at hm
              cases hsg2 : w.sgSend (verificationMsg m.email m.activationLink) with
              | ok u =>
                simp [sendVerificationEmail, hsg2] at hm
                subst hm; rfl
              | error e0 =>
                simp [sendVerificationEmail, hsg2, logErrorMetric,
                  logMetric] at hm
                rcases hm with rfl | rfl <;> rfl
          next tr2 u2 heq2 =>
            obtain ⟨hsg, htr2⟩ := sendVerificationEmail_ok heq2
            split
            next tr3 e3 heq3 =>
              right
              exact ⟨tr1, verificationMsg m.email m.activationLink, tr3,
                by simp [htr1, htr2], hsg, by simp [htr1, isDbEffect]⟩
            next tr3 u3 heq3 =>
              right
              exact ⟨tr1, verificationMsg m.email m.activationLink,
                tr3 ++ logMetric "EmailsSent" 1 "Count",
                by simp [htr1, htr2], hsg, by simp [htr1, isDbEffect]⟩

/-- C2: whenever the trace of an invocation contains any database
effect, a successful SendGrid send precedes every database effect in
that trace; hence if the send fails (throws), the database UPDATE is
never attempted — the ordering is send-then-record, never
record-then-send. -/
lemma handler_trace (w : World) (e : Event) :
    (handler w e).1 = (handlerTry w e).1 ∨
    (handler w e).1 = (handlerTry w e).1 ++ logErrorMetric "GeneralError" := by
  unfold handler
  rcases handlerTry w e with ⟨tr0, r0⟩
  cases r0 <;> simp

theorem C2_send_before_record (w : World) (e : Event)
    (h : ∃ eff ∈ (handler w e).1, isDbEffect eff = true) :
    ∃ (l₁ : List Effect) (m : SgMsg) (l₂ : List Effect),
      (handler w e).1 = l₁ ++ Effect.sgSend m :: l₂ ∧
      w.sgSend m = Except.ok () ∧
      ∀ eff ∈ l₁, isDbEffect eff = false := by
  have H := handlerTry_db_after_send w e
  rcases handler_trace w e with ht | ht <;> rw [ht] at h ⊢
  · rcases H with H | ⟨l₁, m, l₂, htr, hsg, hl₁⟩
    · exfalso
      obtain ⟨eff, hm, hdb⟩ := h
      exact absurd (H eff hm) (by simp [hdb])
    · exact ⟨l₁, m, l₂, htr, hsg, hl₁⟩
  · rcases H with H | ⟨l₁, m, l₂, htr, hsg, hl₁⟩
    · exfalso
      obtain ⟨eff, hm, hdb⟩ := h
      simp [logErrorMetric, logMetric] at hm
      rcases hm with hm | rfl
      · exact absurd (H eff hm) (by simp [hdb])
      · simp [isDbEffect] at hdb
    · refine ⟨l₁, m, l₂ ++ logErrorMetric "GeneralError", ?_, hsg, hl₁⟩
      simp [htr]

/-- Witness for C2: the fully successful world, whose trace does contain
database effects. -/
theorem C2_send_before_record_witness :
    ∃ (l₁ : List Effect) (m : SgMsg) (l₂ : List Effect),
      (handler okWorld okEvent).1 = l₁ ++ Effect.sgSend m :: l₂ ∧
      okWorld.sgSend m = Except.ok () ∧
      ∀ eff ∈ l₁, isDbEffect eff = false :=
  C2_send_before_record okWorld okEvent ⟨Effect.dbEnd, by decide, rfl⟩

/-- C3: if any required configuration value is absent, the handler
throws the configuration error for the first falsy required variable
before any external call is made: its whole trace is the single
`GeneralError` metric emission of the catch block — no secret retrieval,
no email send and no database call occurs. -/
theorem C3_missing_config_aborts (w : World) (e : Event) (v : String)
    (hv : v ∈ requiredEnvVars) (hnone : w.env v = none) :
    ∃ v0, v0 ∈ requiredEnvVars ∧ isFalsyEnv (w.env v0) = true ∧
      handler w e = (logErrorMetric "GeneralError",
        Except.error ("Environment variable " ++ v0 ++ " is not set")) := by
  have hsome : (firstMissingEnv w).isSome := by
    rw [firstMissingEnv, List.find?_isSome]
    exact ⟨v, hv, by simp [isFalsyEnv, hnone]⟩
  obtain ⟨v0, hv0⟩ := Option.isSome_iff_exists.mp hsome
  have hv0u : requiredEnvVars.find? (fun x => isFalsyEnv (w.env x)) =
      some v0 := hv0
  have hp := List.find?_some hv0u
  refine ⟨v0, List.mem_of_find?_eq_some hv0u, hp, ?_⟩
  unfold handler handlerTry
  rw [hv0]
  simp

/-- Witness for C3: the world in which `REGION` is unset. -/
theorem C3_missing_config_aborts_witness :
    ∃ v0, v0 ∈ requiredEnvVars ∧
      isFalsyEnv (missingRegionWorld.env v0) = true ∧
      handler missingRegionWorld okEvent = (logErrorMetric "GeneralError",
        Except.error ("Environment variable " ++ v0 ++ " is not set")) :=
  C3_missing_config_aborts missingRegionWorld okEvent "REGION"
    (by decide) rfl

/-- C5: on any invocation that reaches the UPDATE and finds it affected
zero rows, the handler throws the unknown-user error naming the userId
and does not return the success marker. -/
theorem C5_zero_rows_is_error (w : World) (e : Event) (r0 : SnsRecord)
    (rest : List SnsRecord) (m : Message) (s1 s2 : Secret)
    (henv : firstMissingEnv w = none)
    (hg1 : w.getSecret (w.env "EMAIL_CREDENTIALS_SECRET_NAME") =
      Except.ok s1)
    (hrec : e.records = r0 :: rest)
    (hmsg : r0.message = Except.ok m)
    (hsg : w.sgSend (verificationMsg m.email m.activationLink) =
      Except.ok ())
    (hg2 : w.getSecret (w.env "DB_CREDENTIALS_SECRET_NAME") = Except.ok s2)
    (hcn : w.dbConnect (w.env "DB_HOST") (w.env "DB_USER") s2.password
      (w.env "DB_NAME") = Except.ok ())
    (hex : w.dbExecute query [m.userId] = Except.ok 0) :
    (handler w e).2 =
      Except.error ("No user found with ID " ++ jsToString m.userId) ∧
    ∀ res : HandlerResult, (handler w e).2 ≠ Except.ok res := by
  have h2 : (handler w e).2 =
      Except.error ("No user found with ID " ++ jsToString m.userId) := by
    simp [handler, handlerTry, henv, getSecretValue, hg1, hrec, hmsg,
      sendVerificationEmail, hsg, logEmailSent, getDbPassword, hg2, hcn, hex]
  exact ⟨h2, fun res hres => by rw [h2] at hres; cases hres⟩

/-- Witness for C5: the world whose UPDATE affects zero rows. -/
theorem C5_zero_rows_is_error_witness :
    (handler zeroRowsWorld okEvent).2 =
      Except.error ("No user found with ID " ++ jsToString okMessage.userId) ∧
    ∀ res : HandlerResult,
      (handler zeroRowsWorld okEvent).2 ≠ Except.ok res :=
  C5_zero_rows_is_error zeroRowsWorld okEvent
    { message := Except.ok okMessage } [] okMessage
    { sendgrid_api_key := some "k", password := some "p" }
    { sendgrid_api_key := some "k", password := some "p" }
    rfl rfl rfl rfl rfl rfl rfl rfl

/-- C6: the handler never swallows a failure — if it returns the
success marker, then every external call recorded in its trace
succeeded (both secret retrievals, the send, the connection, and the
UPDATE with a nonzero affected-row count); contrapositively, any
failure of a step propagates an error to the caller. -/
theorem C6_failures_propagate (w : World) (e : Event) (res : HandlerResult)
    (h : (handler w e).2 = Except.ok res) :
    ∀ eff ∈ (handler w e).1, effectOk w eff := by
  have hpair : handler w e = ((handler w e).1, Except.ok res) := by
    rcases hh : handler w e with ⟨tr0, r0⟩
    rw [hh] at h
    simp at h
    rw [h]
  obtain ⟨hres, henv, s1, r0, rest, m, s2, k, hg1, hrec, hmsg, hsg, hg2,
    hcn, hex, hk, htr⟩ := handlerTry_ok (handler_ok hpair)
  rw [htr]
  intro eff hm
  simp [logMetric] at hm
  rcases hm with rfl | rfl | rfl | rfl | rfl | rfl | rfl
  · exact ⟨s1, hg1⟩
  · exact hsg
  · exact ⟨s2, hg2⟩
  · exact hcn
  · exact ⟨k, hex, hk⟩
  · trivial
  · trivial

/-- Witness for C6: in the fully successful run, the recorded UPDATE
call succeeded with a nonzero affected-row count. -/
theorem C6_failures_propagate_witness :
    effectOk okWorld (Effect.dbExecute query [some "42"]) :=
  C6_failures_propagate okWorld okEvent { status := "Success" } rfl
    (Effect.dbExecute query [some "42"]) (by decide)

/-- C7: the record step is a scoped-resource pattern — it attempts at
most one connection and at most one statement, never closes more
connections than it opened, and on every exit path on which the
connection was actually acquired (success, UPDATE error, or the
zero-affected-rows error) it runs exactly one statement and closes the
connection exactly once. -/
theorem C7_connection_scoped (w : World) (userId email : Option String) :
    (logEmailSent w userId email).1.countP isDbConnect ≤ 1 ∧
    (logEmailSent w userId email).1.countP isDbExecute ≤ 1 ∧
    (logEmailSent w userId email).1.countP isDbEnd ≤
      (logEmailSent w userId email).1.countP isDbConnect ∧
    ((∃ h u p d,
        Effect.dbConnect h u p d ∈ (logEmailSent w userId email).1 ∧
        w.dbConnect h u p d = Except.ok ()) →
      (logEmailSent w userId email).1.countP isDbEnd = 1 ∧
      (logEmailSent w userId email).1.countP isDbExecute = 1) := by
  cases hgp : w.getSecret (w.env "DB_CREDENTIALS_SECRET_NAME") with
  | error e0 =>
    simp [logEmailSent, getDbPassword, getSecretValue, hgp, logErrorMetric,
      logMetric, isDbConnect, isDbExecute, isDbEnd]
  | ok s =>
    cases hcn : w.dbConnect (w.env "DB_HOST") (w.env "DB_USER") s.password
        (w.env "DB_NAME") with
    | error e0 =>
      simp [logEmailSent, getDbPassword, getSecretValue, hgp, hcn,
        logErrorMetric, logMetric, isDbConnect, isDbExecute, isDbEnd]
      rintro h' u' p' d' rfl rfl rfl rfl
      simp [hcn]
    | ok u2 =>
      cases hex : w.dbExecute query [userId] with
      | error e0 =>
        simp [logEmailSent, getDbPassword, getSecretValue, hgp, hcn, hex,
          logErrorMetric, logMetric, isDbConnect, isDbExecute, isDbEnd]
      | ok k =>
        by_cases hk : k = 0 <;>
          simp [logEmailSent, getDbPassword, getSecretValue, hgp, hcn, hex,
            hk, logErrorMetric, logMetric, isDbConnect, isDbExecute, isDbEnd]

/-- Witness for C7: the fully successful world, in which the connection
is acquired, used once and closed once. -/
theorem C7_connection_scoped_witness :
    (logEmailSent okWorld (some "42") (some "a@b.com")).1.countP
      isDbEnd = 1 ∧
    (logEmailSent okWorld (some "42") (some "a@b.com")).1.countP
      isDbExecute = 1 :=
  (C7_connection_scoped okWorld (some "42") (some "a@b.com")).2.2.2
    ⟨some "v", some "v", some "p", some "v", by decide, rfl⟩

/-- C4 counterexample: on the event whose payload lacks `userId`, the
handler raises no parse/validation error at all — with every external
call succeeding it even returns the success marker — and external calls
do occur (one SendGrid send, two secret retrievals), so no error of any
kind precedes them. -/
theorem C4_counterexample :
    (handler okWorld noUserIdEvent).2 = Except.ok { status := "Success" } ∧
    (handler okWorld noUserIdEvent).1.countP isSgSend = 1 ∧
    (handler okWorld noUserIdEvent).1.countP isGetSecret = 2 :=
  ⟨rfl, rfl, rfl⟩

/-- C4 (amended): a payload missing `userId` triggers no
parse/validation error: when the environment is complete and the email
credentials resolve, the handler still performs the email-credentials
secret retrieval followed by the SendGrid send attempt as its first two
effects — external calls happen with the `userId` absent, and any error
can arise only afterwards (at the database step). -/
theorem C4_missing_userId_no_validation (w : World) (e : Event)
    (r0 : SnsRecord) (rest : List SnsRecord) (m : Message) (s1 : Secret)
    (henv : firstMissingEnv w = none)
    (hg1 : w.getSecret (w.env "EMAIL_CREDENTIALS_SECRET_NAME") =
      Except.ok s1)
    (hrec : e.records = r0 :: rest)
    (hmsg : r0.message = Except.ok m)
    (huid : m.userId = none) :
    ∃ restTr, (handler w e).1 =
      Effect.getSecret (w.env "EMAIL_CREDENTIALS_SECRET_NAME") ::
      Effect.sgSend (verificationMsg m.email m.activationLink) :: restTr := by
  cases hsg : w.sgSend (verificationMsg m.email m.activationLink) with
  | error e0 =>
    refine ⟨logErrorMetric "SendGridError" ++ logErrorMetric "GeneralError",
      ?_⟩
    simp [handler, handlerTry, henv, getSecretValue, hg1, hrec, hmsg,
      sendVerificationEmail, hsg]
  | ok u2 =>
    rcases hle : logEmailSent w m.userId m.email with ⟨tr3, r3⟩
    cases r3 with
    | error e0 =>
      refine ⟨tr3 ++ logErrorMetric "GeneralError", ?_⟩
      simp [handler, handlerTry, henv, getSecretValue, hg1, hrec, hmsg,
        sendVerificationEmail, hsg, hle]
    | ok u3 =>
      refine ⟨tr3 ++ logMetric "EmailsSent" 1 "Count", ?_⟩
      simp [handler, handlerTry, henv, getSecretValue, hg1, hrec, hmsg,
        sendVerificationEmail, hsg, hle]

/-- Witness for the amended C4 at the concrete no-`userId` event. -/
theorem C4_missing_userId_no_validation_witness :
    ∃ restTr, (handler okWorld noUserIdEvent).1 =
      Effect.getSecret (okWorld.env "EMAIL_CREDENTIALS_SECRET_NAME") ::
      Effect.sgSend (verificationMsg noUserIdMessage.email
        noUserIdMessage.activationLink) :: restTr :=
  C4_missing_userId_no_validation okWorld noUserIdEvent
    { message := Except.ok noUserIdMessage } [] noUserIdMessage
    { sendgrid_api_key := some "k", password := some "p" }
    rfl rfl rfl rfl rfl

/-- C10 counterexample: the invocation failing on the missing `REGION`
variable emits exactly one metric in total — the `GeneralError` counter
alone, with no step-specific error counter — refuting that every
failure produces two error-metric emissions. -/
theorem C10_counterexample :
    (handler missingRegionWorld okEvent).2 =
      Except.error "Environment variable REGION is not set" ∧
    (handler missingRegionWorld okEvent).1.countP isPutMetric = 1 ∧
    (handler missingRegionWorld okEvent).1 =
      logErrorMetric "GeneralError" :=
  ⟨rfl, rfl, rfl⟩

/-- C10 (amended): every failing invocation ends its trace with a
`GeneralError` emission; the step functions emit their step-specific
counters exactly when they fail (`SecretsManagerError` for a secret
retrieval, `SendGridError` for the send, `DatabaseError` for the record
step) — so environment-validation and payload-parse failures emit only
`GeneralError`, while a failure of the DB-credentials retrieval emits
three error counters; a successful invocation emits only the
`EmailsSent` counter. -/
theorem C10_error_metrics (w : World) (e : Event) :
    (∀ err : String, (handler w e).2 = Except.error err →
      ∃ tr0, (handler w e).1 = tr0 ++ logErrorMetric "GeneralError") ∧
    (∀ res : HandlerResult, (handler w e).2 = Except.ok res →
      (handler w e).1.filter isPutMetric =
        logMetric "EmailsSent" 1 "Count") ∧
    (∀ n err, (getSecretValue w n).2 = Except.error err →
      (getSecretValue w n).1.filter isPutMetric =
        logErrorMetric "SecretsManagerError") ∧
    (∀ email link err,
      (sendVerificationEmail w email link).2 = Except.error err →
      (sendVerificationEmail w email link).1.filter isPutMetric =
        logErrorMetric "SendGridError") ∧
    (∀ u em err, (logEmailSent w u em).2 = Except.error err →
      Effect.putMetric "EmailVerificationMetrics" "DatabaseError" "Count" 1
        [("FunctionName", FUNCTION_NAME)] ∈ (logEmailSent w u em).1) := by
  refine ⟨?_, ?_, ?_, ?_, ?_⟩
  · intro err herr
    rcases hT : handlerTry w e with ⟨tr0, r0⟩
    cases r0 with
    | ok res =>
      exfalso
      unfold handler at herr
      rw [hT] at herr
      simp at herr
    | error e1 =>
      refine ⟨tr0, ?_⟩
      unfold handler
      rw [hT]
  · intro res hres
    have hpair : handler w e = ((handler w e).1, Except.ok res) := by
      rcases hh : handler w e with ⟨tr0, r0⟩
      rw [hh] at hres
      simp at hres
      rw [hres]
    obtain ⟨hres2, henv, s1, r0, rest, m, s2, k, hg1, hrec, hmsg, hsg, hg2,
      hcn, hex, hk, htr⟩ := handlerTry_ok (handler_ok hpair)
    rw [htr]
    simp [logMetric, isPutMetric]
  · intro n err h
    cases hq : w.getSecret n with
    | ok s => simp [getSecretValue, hq] at h
    | error e0 =>
      simp [getSecretValue, hq, logErrorMetric, logMetric, isPutMetric]
  · intro email link err h
    cases hq : w.sgSend (verificationMsg email link) with
    | ok u => simp [sendVerificationEmail, hq] at h
    | error e0 =>
      simp [sendVerificationEmail, hq, logErrorMetric, logMetric,
        isPutMetric]
  · intro u em err h
    cases hgp : w.getSecret (w.env "DB_CREDENTIALS_SECRET_NAME") with
    | error e0 =>
      simp [logEmailSent, getDbPassword, getSecretValue, hgp,
        logErrorMetric, logMetric]
    | ok s =>
      cases hcn : w.dbConnect (w.env "DB_HOST") (w.env "DB_USER") s.password
          (w.env "DB_NAME") with
      | error e0 =>
        simp [logEmailSent, getDbPassword, getSecretValue, hgp, hcn,
          logErrorMetric, logMetric]
      | ok u2 =>
        cases hex : w.dbExecute query [u] with
        | error e0 =>
          simp [logEmailSent, getDbPassword, getSecretValue, hgp, hcn, hex,
            logErrorMetric, logMetric]
        | ok k =>
          by_cases hk : k = 0
          · simp [logEmailSent, getDbPassword, getSecretValue, hgp, hcn,
              hex, hk, logErrorMetric, logMetric]
          · simp [logEmailSent, getDbPassword, getSecretValue, hgp, hcn,
              hex, hk] at h

/-- Witness for the amended C10: the `REGION`-missing failure ends with
`GeneralError`, and the fully successful run's only metric is
`EmailsSent`. -/
theorem C10_error_metrics_witness :
    (∃ tr0, (handler missingRegionWorld okEvent).1 =
      tr0 ++ logErrorMetric "GeneralError") ∧
    (handler okWorld okEvent).1.filter isPutMetric =
      logMetric "EmailsSent" 1 "Count" :=
  ⟨(C10_error_metrics missingRegionWorld okEvent).1
      "Environment variable REGION is not set" rfl,
    (C10_error_metrics okWorld okEvent).2.1 { status := "Success" } rfl⟩

end EmailVerification
